import Mathlib

/-!
Shallow embedding of the padel opportunity-scoring core:
`src/models/facility.py`, `src/models/city.py`,
`src/analyzers/aggregator.py`, `src/analyzers/distance.py`,
`src/analyzers/scorer.py`.

Numeric values are modelled as rationals (`ℚ`); optional Python values
become `Option`.  The geodesic distance function from the external
`geopy` library is a parameter `d : ℚ × ℚ → ℚ × ℚ → ℚ` of the distance
calculator definitions; concrete instantiations used in witnesses and
counterexamples only rely on properties (non-negativity, vanishing on
identical coordinate pairs) that the real geodesic distance has.
-/

namespace Padel

/-- The fields of `src/models/facility.py::Facility` used by the
aggregator and distance calculator.  The `city` field is assumed
already normalized (Title Case), as the model normalizes it at
construction time. -/
structure Facility where
  place_id : String
  name : String
  city : String
  latitude : ℚ
  longitude : ℚ
  rating : Option ℚ
  review_count : ℕ
deriving DecidableEq

/-- `src/models/city.py::CityStats`, with the pydantic field defaults. -/
structure CityStats where
  city : String
  total_facilities : ℕ
  avg_rating : Option ℚ := none
  median_rating : Option ℚ := none
  total_reviews : ℕ := 0
  center_lat : ℚ
  center_lng : ℚ
  population : Option ℕ := none
  facilities_per_capita : Option ℚ := none
  avg_distance_to_nearest : Option ℚ := none
  opportunity_score : ℚ := 0
  population_weight : ℚ := 0
  saturation_weight : ℚ := 0
  quality_gap_weight : ℚ := 0
  geographic_gap_weight : ℚ := 0
deriving DecidableEq

/-- `CityAggregator.CITY_POPULATIONS` (aggregator.py lines 34-50). -/
def cityPopulations : List (String × ℕ) :=
  [("Albufeira", 42388),
   ("Aljezur", 5347),
   ("Castro Marim", 6747),
   ("Faro", 64560),
   ("Lagoa", 23676),
   ("Lagos", 31049),
   ("Loulé", 72162),
   ("Monchique", 5958),
   ("Olhão", 45396),
   ("Portimão", 59896),
   ("São Brás De Alportel", 11381),
   ("Silves", 37126),
   ("Tavira", 26167),
   ("Vila Do Bispo", 5717),
   ("Vila Real De Santo António", 19156)]

/-- `CityAggregator.CITY_CENTERS` (aggregator.py lines 53-69). -/
def cityCenters : List (String × (ℚ × ℚ)) :=
  [("Albufeira", (37.0885, -8.2475)),
   ("Aljezur", (37.3183, -8.8042)),
   ("Castro Marim", (37.2169, -7.4472)),
   ("Faro", (37.0194, -7.9322)),
   ("Lagoa", (37.1333, -8.4500)),
   ("Lagos", (37.1028, -8.6732)),
   ("Loulé", (37.1376, -8.0222)),
   ("Monchique", (37.3167, -8.5556)),
   ("Olhão", (37.0267, -7.8411)),
   ("Portimão", (37.1391, -8.5372)),
   ("São Brás De Alportel", (37.1525, -7.8836)),
   ("Silves", (37.1875, -8.4383)),
   ("Tavira", (37.1267, -7.6486)),
   ("Vila Do Bispo", (37.0833, -8.9122)),
   ("Vila Real De Santo António", (37.1961, -7.4167))]

/-- The 15 roster city names, i.e. the keys of `CITY_POPULATIONS`. -/
def rosterNames : List String := cityPopulations.map Prod.fst

/-- The distinct city names occurring in a facility list: the keys of the
`facility_stats` dict built by `pandas.groupby('city')` in
`CityAggregator.aggregate` (aggregator.py lines 110-117). -/
def distinctCities (fs : List Facility) : List String :=
  (fs.map Facility.city).dedup

/-- `pandas` median of a list of rationals: sort, take the middle element
(odd length) or the mean of the two middle elements (even length). -/
def medianQ (l : List ℚ) : ℚ :=
  let s := l.mergeSort (fun a b => a ≤ b)
  if l.length % 2 = 1 then s.getD (l.length / 2) 0
  else (s.getD (l.length / 2 - 1) 0 + s.getD (l.length / 2) 0) / 2

/-- The per-group statistics record built in the `groupby` loop of
`CityAggregator.aggregate` (aggregator.py lines 117-156) for a city
`c` occurring in the facility list. -/
def aggStats (c : String) (fs : List Facility) : CityStats :=
  let group := fs.filter (fun f => f.city = c)
  let ratings := group.filterMap Facility.rating
  let avg_rating : Option ℚ :=
    if ratings.length > 0 then some (ratings.sum / ratings.length) else none
  let median_rating : Option ℚ :=
    if ratings.length > 0 then some (medianQ ratings) else none
  let population := cityPopulations.lookup c
  { city := c
    total_facilities := group.length
    avg_rating := avg_rating
    median_rating := median_rating
    total_reviews := (group.map Facility.review_count).sum
    center_lat := (group.map Facility.latitude).sum / group.length
    center_lng := (group.map Facility.longitude).sum / group.length
    population := population
    facilities_per_capita :=
      population.map (fun p => ((group.length : ℚ) / p) * 10000) }

/-- The zero-facility default row built in step 2 of
`CityAggregator.aggregate` (aggregator.py lines 166-178). -/
def zeroFacilityRow (c : String) (pop : ℕ) : CityStats :=
  let center := (cityCenters.lookup c).getD (0, 0)
  { city := c
    total_facilities := 0
    avg_rating := none
    median_rating := none
    total_reviews := 0
    center_lat := center.1
    center_lng := center.2
    population := some pop
    facilities_per_capita := some 0 }

/-- `CityAggregator.aggregate` (aggregator.py lines 71-188): one row per
roster city (aggregated stats when the city occurs in the input,
zero-facility defaults otherwise), followed by one row per non-roster
city occurring in the input. -/
def aggregate (fs : List Facility) : List CityStats :=
  (cityPopulations.map fun cp =>
    if cp.1 ∈ distinctCities fs then aggStats cp.1 fs
    else zeroFacilityRow cp.1 cp.2)
  ++ ((distinctCities fs).filter (fun c => !(rosterNames.contains c))).map
      (fun c => aggStats c fs)

/-! ## Distance calculator (`src/analyzers/distance.py`) -/

/-- Minimum of a list of rationals (Python `min`); 0 on the empty list,
which never occurs in the source's uses. -/
def listMin : List ℚ → ℚ
  | [] => 0
  | x :: xs => xs.foldl min x

/-- Maximum of a list of rationals (Python `max`); 0 on the empty list. -/
def listMax : List ℚ → ℚ
  | [] => 0
  | x :: xs => xs.foldl max x

/-- Round-half-to-even to the nearest integer (Python's `round`). -/
def roundHalfEven (x : ℚ) : ℤ :=
  if x - ⌊x⌋ < 1/2 then ⌊x⌋
  else if x - ⌊x⌋ > 1/2 then ⌊x⌋ + 1
  else if ⌊x⌋ % 2 = 0 then ⌊x⌋ else ⌊x⌋ + 1

/-- Python's `round(x, 2)`: round to two decimal places, half to even. -/
def round2 (x : ℚ) : ℚ := (roundHalfEven (x * 100) : ℚ) / 100

/-- `DistanceCalculator.calculate_distance_to_nearest` (distance.py lines
123-187), parameterized by the geodesic distance function `d` (the
external `geopy.distance.geodesic(...).kilometers`). -/
def calculate_distance_to_nearest (d : ℚ × ℚ → ℚ × ℚ → ℚ)
    (city : String) (all_facilities : List Facility) : ℚ :=
  if all_facilities = [] then 0
  else
    let city_facilities := all_facilities.filter (fun f => f.city = city)
    if city_facilities = [] then 0
    else
      let center_lat := (city_facilities.map Facility.latitude).sum / city_facilities.length
      let center_lng := (city_facilities.map Facility.longitude).sum / city_facilities.length
      let external_facilities := all_facilities.filter (fun f => f.city ≠ city)
      if external_facilities = [] then 0
      else
        round2 (listMin (external_facilities.map
          (fun f => d (center_lat, center_lng) (f.latitude, f.longitude))))

/-- `DistanceCalculator._calculate_distance_for_city` (distance.py lines
71-121), parameterized by the geodesic distance function `d`. -/
def calculate_distance_for_city (d : ℚ × ℚ → ℚ × ℚ → ℚ)
    (city_stats : CityStats) (all_facilities : List Facility) : ℚ :=
  let city_facilities := all_facilities.filter (fun f => f.city = city_stats.city)
  if city_facilities = [] then
    if all_facilities = [] then 0
    else
      round2 (listMin (all_facilities.map
        (fun f => d (city_stats.center_lat, city_stats.center_lng)
                    (f.latitude, f.longitude))))
  else
    calculate_distance_to_nearest d city_stats.city all_facilities

/-- `DistanceCalculator.calculate_distances` (distance.py lines 28-69):
set `avg_distance_to_nearest` on every entry. -/
def calculate_distances (d : ℚ × ℚ → ℚ × ℚ → ℚ)
    (city_stats : List CityStats) (all_facilities : List Facility) : List CityStats :=
  city_stats.map (fun s =>
    { s with
      avg_distance_to_nearest := some (calculate_distance_for_city d s all_facilities) })

/-! ## Opportunity scorer (`src/analyzers/scorer.py`) -/

/-- `OpportunityScorer.POPULATION_WEIGHT_FACTOR` (scorer.py line 31). -/
def POPULATION_WEIGHT_FACTOR : ℚ := 0.2

/-- `OpportunityScorer.SATURATION_WEIGHT_FACTOR` (scorer.py line 32). -/
def SATURATION_WEIGHT_FACTOR : ℚ := 0.3

/-- `OpportunityScorer.QUALITY_GAP_WEIGHT_FACTOR` (scorer.py line 33). -/
def QUALITY_GAP_WEIGHT_FACTOR : ℚ := 0.2

/-- `OpportunityScorer.GEOGRAPHIC_GAP_WEIGHT_FACTOR` (scorer.py line 34). -/
def GEOGRAPHIC_GAP_WEIGHT_FACTOR : ℚ := 0.3

/-- The constructor-time validation of `OpportunityScorer.__init__`
(scorer.py lines 44-58): `Except.error` models the raised `ValueError`. -/
def scorerInit (p s q g : ℚ) : Except String Unit :=
  let total := p + s + q + g
  if 0.9999 ≤ total ∧ total ≤ 1.0001 then Except.ok ()
  else Except.error "Formula weights must sum to 1.0"

/-- `OpportunityScorer._normalize` (scorer.py lines 186-228): min-max
normalization with neutral-0.5 edge cases, optionally inverted. -/
def pyNormalize (value : Option ℚ) (all_values : List (Option ℚ))
    (invert : Bool) : ℚ :=
  match value with
  | none => 0.5
  | some v =>
    if all_values = [] then 0.5
    else if (all_values.filterMap id) = [] ∨ (all_values.filterMap id).length = 1 then 0.5
    else if listMax (all_values.filterMap id) - listMin (all_values.filterMap id)
        < 1/1000000 then 0.5
    else if invert then
      1 - (v - listMin (all_values.filterMap id))
        / (listMax (all_values.filterMap id) - listMin (all_values.filterMap id) + 1/1000000)
    else
      (v - listMin (all_values.filterMap id))
        / (listMax (all_values.filterMap id) - listMin (all_values.filterMap id) + 1/1000000)

/-- `OpportunityScorer._normalize_population` (scorer.py lines 108-122). -/
def normalize_population (value : Option ℚ) (all_values : List (Option ℚ)) : ℚ :=
  pyNormalize value all_values false

/-- `OpportunityScorer._normalize_saturation` (scorer.py lines 124-139). -/
def normalize_saturation (value : Option ℚ) (all_values : List (Option ℚ)) : ℚ :=
  pyNormalize value all_values true

/-- `OpportunityScorer._normalize_quality_gap` (scorer.py lines 141-156). -/
def normalize_quality_gap (value : Option ℚ) (all_values : List (Option ℚ)) : ℚ :=
  pyNormalize value all_values true

/-- `OpportunityScorer._normalize_geographic_gap` (scorer.py lines
158-184): absolute distance buckets, 0.5 for `None` or negative input. -/
def normalize_geographic_gap (value : Option ℚ) : ℚ :=
  match value with
  | none => 0.5
  | some v =>
    if v < 0 then 0.5
    else if v < 5 then 0.25
    else if v < 10 then 0.50
    else if v < 20 then 0.75
    else 1.0

/-- `CityStats.calculate_opportunity_score` (city.py lines 62-81):
set `opportunity_score` from the four weight fields. -/
def calculate_opportunity_score (s : CityStats) : CityStats :=
  { s with
    opportunity_score := (s.population_weight * 0.2
      + s.saturation_weight * 0.3
      + s.quality_gap_weight * 0.2
      + s.geographic_gap_weight * 0.3) * 100 }

/-- `OpportunityScorer.calculate_scores` (scorer.py lines 60-106):
normalize the four components for every entry and recompute each
entry's opportunity score. -/
def calculate_scores (city_stats : List CityStats) : List CityStats :=
  if city_stats = [] then city_stats
  else
    city_stats.map (fun s =>
      calculate_opportunity_score
        { s with
          population_weight := normalize_population (s.population.map (fun n => (n : ℚ)))
            (city_stats.map (fun t => t.population.map (fun n => (n : ℚ))))
          saturation_weight := normalize_saturation s.facilities_per_capita
            (city_stats.map CityStats.facilities_per_capita)
          quality_gap_weight := normalize_quality_gap s.avg_rating
            (city_stats.map CityStats.avg_rating)
          geographic_gap_weight := normalize_geographic_gap s.avg_distance_to_nearest })

/-! ## Helper lemmas -/

theorem foldl_min_le_init (xs : List ℚ) (a : ℚ) : xs.foldl min a ≤ a := by
  induction xs generalizing a with
  | nil => exact le_refl a
  | cons x xs ih =>
    calc (x :: xs).foldl min a = xs.foldl min (min a x) := rfl
    _ ≤ min a x := ih (min a x)
    _ ≤ a := min_le_left a x

theorem foldl_min_le_of_mem (xs : List ℚ) (a x : ℚ) (hx : x ∈ xs) :
    xs.foldl min a ≤ x := by
  induction xs generalizing a with
  | nil => cases hx
  | cons y ys ih =>
    rcases List.mem_cons.mp hx with h | h
    · subst h
      calc ys.foldl min (min a x) ≤ min a x := foldl_min_le_init ys (min a x)
      _ ≤ x := min_le_right a x
    · exact ih (min a y) h

theorem listMin_le_of_mem (l : List ℚ) (x : ℚ) (hx : x ∈ l) : listMin l ≤ x := by
  cases l with
  | nil => cases hx
  | cons y ys =>
    rcases List.mem_cons.mp hx with h | h
    · subst h; exact foldl_min_le_init ys x
    · exact foldl_min_le_of_mem ys y x h

theorem init_le_foldl_max (xs : List ℚ) (a : ℚ) : a ≤ xs.foldl max a := by
  induction xs generalizing a with
  | nil => exact le_refl a
  | cons x xs ih =>
    calc a ≤ max a x := le_max_left a x
    _ ≤ xs.foldl max (max a x) := ih (max a x)

theorem le_foldl_max_of_mem (xs : List ℚ) (a x : ℚ) (hx : x ∈ xs) :
    x ≤ xs.foldl max a := by
  induction xs generalizing a with
  | nil => cases hx
  | cons y ys ih =>
    rcases List.mem_cons.mp hx with h | h
    · subst h
      calc x ≤ max a x := le_max_right a x
      _ ≤ ys.foldl max (max a x) := init_le_foldl_max ys (max a x)
    · exact ih (max a y) h

theorem le_listMax_of_mem (l : List ℚ) (x : ℚ) (hx : x ∈ l) : x ≤ listMax l := by
  cases l with
  | nil => cases hx
  | cons y ys =>
    rcases List.mem_cons.mp hx with h | h
    · subst h; exact init_le_foldl_max ys x
    · exact le_foldl_max_of_mem ys y x h

theorem foldl_min_mem (xs : List ℚ) (a : ℚ) : xs.foldl min a = a ∨ xs.foldl min a ∈ xs := by
  induction xs generalizing a with
  | nil => exact Or.inl rfl
  | cons x xs ih =>
    rcases ih (min a x) with h | h
    · rcases min_cases a x with ⟨he, _⟩ | ⟨he, _⟩
      · exact Or.inl (by rw [List.foldl_cons, h, he])
      · exact Or.inr (by rw [List.foldl_cons, h, he]; exact List.mem_cons_self x xs)
    · exact Or.inr (List.mem_cons_of_mem x h)

theorem listMin_mem (l : List ℚ) (hl : l ≠ []) : listMin l ∈ l := by
  cases l with
  | nil => exact absurd rfl hl
  | cons y ys =>
    rcases foldl_min_mem ys y with h | h
    · rw [listMin, h]; exact List.mem_cons_self y ys
    · exact List.mem_cons_of_mem y h

theorem roundHalfEven_ge_one (x : ℚ) (hx : 1/2 < x) : 1 ≤ roundHalfEven x := by
  unfold roundHalfEven
  rcases le_or_lt 1 ⌊x⌋ with h1 | h1
  · split_ifs <;> omega
  · have h0 : (0 : ℤ) ≤ ⌊x⌋ := by
      have hx0 : (0 : ℚ) ≤ x := le_of_lt (lt_trans (by norm_num) hx)
      exact Int.floor_nonneg.mpr hx0
    have hn : ⌊x⌋ = 0 := by omega
    have hfrac : ¬ (x - (⌊x⌋ : ℚ) < 1/2) := by
      rw [hn]; push_neg; push_cast; linarith
    have hfrac2 : x - (⌊x⌋ : ℚ) > 1/2 := by
      rw [hn]; push_cast; linarith
    split_ifs
    omega

theorem round2_pos (x : ℚ) (hx : 1/200 < x) : 0 < round2 x := by
  have h : 1/2 < x * 100 := by linarith
  have h1 : (1 : ℤ) ≤ roundHalfEven (x * 100) := roundHalfEven_ge_one _ h
  unfold round2
  positivity

theorem le_of_round2_eq_zero (x : ℚ) (hx : round2 x = 0) : x ≤ 1/200 := by
  by_contra h
  push_neg at h
  exact absurd hx (ne_of_gt (round2_pos x h))

theorem pyNormalize_bounds (value : Option ℚ) (all_values : List (Option ℚ))
    (invert : Bool) (hmem : value ∈ all_values) :
    0 ≤ pyNormalize value all_values invert ∧ pyNormalize value all_values invert ≤ 1 := by
  cases value with
  | none => norm_num [pyNormalize]
  | some v =>
    have hv : v ∈ all_values.filterMap id := by
      rw [List.mem_filterMap]
      exact ⟨some v, hmem, rfl⟩
    have hmin : listMin (all_values.filterMap id) ≤ v :=
      listMin_le_of_mem _ v hv
    have hmax : v ≤ listMax (all_values.filterMap id) :=
      le_listMax_of_mem _ v hv
    show 0 ≤ pyNormalize (some v) all_values invert ∧ pyNormalize (some v) all_values invert ≤ 1
    rw [pyNormalize]
    split_ifs with h1 h2 h3 h4
    · norm_num
    · norm_num
    · norm_num
    all_goals {
      push_neg at h3
      have hden : (0 : ℚ) < listMax (all_values.filterMap id)
          - listMin (all_values.filterMap id) + 1/1000000 := by linarith
      have hnorm0 : (0 : ℚ) ≤ (v - listMin (all_values.filterMap id))
          / (listMax (all_values.filterMap id) - listMin (all_values.filterMap id) + 1/1000000) := by
        apply div_nonneg <;> linarith
      have hnorm1 : (v - listMin (all_values.filterMap id))
          / (listMax (all_values.filterMap id) - listMin (all_values.filterMap id) + 1/1000000) ≤ 1 := by
        rw [div_le_one hden]; linarith
      constructor <;> linarith
    }

theorem normalize_geographic_gap_bounds (value : Option ℚ) :
    0 ≤ normalize_geographic_gap value ∧ normalize_geographic_gap value ≤ 1 := by
  cases value with
  | none => norm_num [normalize_geographic_gap]
  | some v =>
    show 0 ≤ normalize_geographic_gap (some v) ∧ normalize_geographic_gap (some v) ≤ 1
    rw [normalize_geographic_gap]
    split_ifs <;> norm_num

theorem pyNormalize_singleton (value : Option ℚ) (invert : Bool) :
    pyNormalize value [value] invert = 0.5 := by
  cases value with
  | none => rfl
  | some v =>
    show pyNormalize (some v) [some v] invert = 0.5
    rw [pyNormalize]
    split_ifs with h1 h2 h3 h4 <;> simp_all

/-! ## Claim theorems -/

/-- C3: `_normalize_geographic_gap` returns exactly 0.25 on [0,5), 0.50 on
[5,10) (so distance 5.0 yields 0.50), 0.75 on [10,20), 1.0 on [20,∞),
and 0.5 for `None` or negative input; the function takes only the
single distance value, so the result never depends on other cities. -/
theorem geographic_gap_buckets (v : ℚ) :
    normalize_geographic_gap none = 0.5
    ∧ (v < 0 → normalize_geographic_gap (some v) = 0.5)
    ∧ (0 ≤ v → v < 5 → normalize_geographic_gap (some v) = 0.25)
    ∧ (5 ≤ v → v < 10 → normalize_geographic_gap (some v) = 0.50)
    ∧ (10 ≤ v → v < 20 → normalize_geographic_gap (some v) = 0.75)
    ∧ (20 ≤ v → normalize_geographic_gap (some v) = 1.0) := by
  refine ⟨rfl, ?_, ?_, ?_, ?_, ?_⟩ <;>
    { intros
      rw [normalize_geographic_gap]
      split_ifs <;> first | rfl | linarith }

/-- Concrete instantiation of `geographic_gap_buckets` at one distance in
each bucket, including the boundary distance 5. -/
theorem geographic_gap_buckets_witness :
    normalize_geographic_gap (some (-1)) = 0.5
    ∧ normalize_geographic_gap (some 3) = 0.25
    ∧ normalize_geographic_gap (some 5) = 0.50
    ∧ normalize_geographic_gap (some 12) = 0.75
    ∧ normalize_geographic_gap (some 25) = 1.0 :=
  ⟨(geographic_gap_buckets (-1)).2.1 (by norm_num),
   (geographic_gap_buckets 3).2.2.1 (by norm_num) (by norm_num),
   (geographic_gap_buckets 5).2.2.2.1 (by norm_num) (by norm_num),
   (geographic_gap_buckets 12).2.2.2.2.1 (by norm_num) (by norm_num),
   (geographic_gap_buckets 25).2.2.2.2.2 (by norm_num)⟩

/-- C4: the three min-max-normalized factors all delegate to `_normalize`,
which returns the neutral 0.5 when the value is `None`, when fewer than
2 non-`None` values exist, or when the spread of the non-`None` values
is below 1e-6; otherwise it returns `(value - min) / (max - min + 1e-6)`,
inverted to one minus that for saturation and quality gap, with a
strictly positive divisor (so no division by zero occurs). -/
theorem minmax_normalize_edge_cases (value : Option ℚ) (all_values : List (Option ℚ)) :
    (normalize_population value all_values = pyNormalize value all_values false
      ∧ normalize_saturation value all_values = pyNormalize value all_values true
      ∧ normalize_quality_gap value all_values = pyNormalize value all_values true)
    ∧ (∀ invert, value = none → pyNormalize value all_values invert = 0.5)
    ∧ (∀ invert, (all_values.filterMap id).length < 2 →
        pyNormalize value all_values invert = 0.5)
    ∧ (∀ invert, listMax (all_values.filterMap id) - listMin (all_values.filterMap id)
          < 1/1000000 →
        pyNormalize value all_values invert = 0.5)
    ∧ (∀ v, value = some v → 2 ≤ (all_values.filterMap id).length →
        1/1000000 ≤ listMax (all_values.filterMap id) - listMin (all_values.filterMap id) →
        0 < listMax (all_values.filterMap id) - listMin (all_values.filterMap id) + 1/1000000
        ∧ pyNormalize value all_values false =
            (v - listMin (all_values.filterMap id))
              / (listMax (all_values.filterMap id) - listMin (all_values.filterMap id)
                  + 1/1000000)
        ∧ pyNormalize value all_values true =
            1 - (v - listMin (all_values.filterMap id))
              / (listMax (all_values.filterMap id) - listMin (all_values.filterMap id)
                  + 1/1000000)) := by
  refine ⟨⟨rfl, rfl, rfl⟩, ?_, ?_, ?_, ?_⟩
  · intro invert hv; subst hv; rfl
  · intro invert hlen
    cases value with
    | none => rfl
    | some v =>
      show pyNormalize (some v) all_values invert = 0.5
      rw [pyNormalize]
      split_ifs with h1 h2 h3 h4 <;> try rfl
      all_goals
        exfalso
        push_neg at h2
        have h0 : (all_values.filterMap id).length = 0 := by omega
        exact h2.1 (List.length_eq_zero.mp h0)
  · intro invert hvar
    cases value with
    | none => rfl
    | some v =>
      show pyNormalize (some v) all_values invert = 0.5
      rw [pyNormalize]
      split_ifs <;> rfl
  · intro v hv hlen hvar
    subst hv
    have hne : ¬ (all_values = []) := by
      intro h0; subst h0; simp at hlen
    have hne2 : ¬ ((all_values.filterMap id) = [] ∨ (all_values.filterMap id).length = 1) := by
      push_neg
      constructor
      · intro h0; rw [h0] at hlen; simp at hlen
      · omega
    have hne3 : ¬ (listMax (all_values.filterMap id) - listMin (all_values.filterMap id)
        < 1/1000000) := by push_neg; exact hvar
    refine ⟨by linarith, ?_, ?_⟩
    · show pyNormalize (some v) all_values false = _
      rw [pyNormalize, if_neg hne, if_neg hne2, if_neg hne3,
        if_neg (by simp : ¬ (false = true))]
    · show pyNormalize (some v) all_values true = _
      rw [pyNormalize, if_neg hne, if_neg hne2, if_neg hne3, if_pos rfl]

/-- Concrete instantiation of `minmax_normalize_edge_cases`: the `None`
value, the single-value set, the zero-variance set, and a genuine
two-value normalization with its positive divisor. -/
theorem minmax_normalize_edge_cases_witness :
    pyNormalize none [some 1, some 2] false = 0.5
    ∧ pyNormalize (some 3) [some 3] true = 0.5
    ∧ pyNormalize (some 3) [some 3, some 3] false = 0.5
    ∧ (0 : ℚ) < listMax ([some 1, some 2].filterMap id)
        - listMin ([some 1, some 2].filterMap id) + 1/1000000
    ∧ pyNormalize (some 1) [some 1, some 2] false =
        (1 - listMin ([some 1, some 2].filterMap id))
          / (listMax ([some 1, some 2].filterMap id)
              - listMin ([some 1, some 2].filterMap id) + 1/1000000) :=
  ⟨(minmax_normalize_edge_cases none [some 1, some 2]).2.1 false rfl,
   (minmax_normalize_edge_cases (some 3) [some 3]).2.2.1 true (by decide),
   (minmax_normalize_edge_cases (some 3) [some 3, some 3]).2.2.2.1 false
      (by rw [show List.filterMap id [some (3:ℚ), some 3] = [3, 3] from rfl, listMax, listMin]
          norm_num),
   ((minmax_normalize_edge_cases (some 1) [some 1, some 2]).2.2.2.2 1 rfl (by decide)
      (by rw [show List.filterMap id [some (1:ℚ), some 2] = [1, 2] from rfl, listMax, listMin]
          norm_num)).1,
   ((minmax_normalize_edge_cases (some 1) [some 1, some 2]).2.2.2.2 1 rfl (by decide)
      (by rw [show List.filterMap id [some (1:ℚ), some 2] = [1, 2] from rfl, listMax, listMin]
          norm_num)).2.1⟩

/-- C9: `OpportunityScorer.__init__` raises exactly when the sum of the
four configured weight factors deviates from 1 by more than 1e-4 (a
sum within [0.9999, 1.0001] is accepted), and the shipped factors
0.2, 0.3, 0.2, 0.3 are accepted.  `calculate_scores` and the
normalization helpers are total functions in this embedding, so this
construction-time validation is the only failure surfaced. -/
theorem scorer_init_raises_iff (p s q g : ℚ) :
    ((∃ msg, scorerInit p s q g = Except.error msg) ↔ 1/10000 < |p + s + q + g - 1|)
    ∧ scorerInit POPULATION_WEIGHT_FACTOR SATURATION_WEIGHT_FACTOR
        QUALITY_GAP_WEIGHT_FACTOR GEOGRAPHIC_GAP_WEIGHT_FACTOR = Except.ok () := by
  constructor
  · rw [scorerInit]
    split_ifs with h
    · constructor
      · rintro ⟨msg, hmsg⟩; cases hmsg
      · intro habs
        exfalso
        rcases lt_abs.mp habs with h1 | h1
        · rcases h with ⟨_, h2⟩
          rw [show (1.0001 : ℚ) = 10001/10000 by norm_num] at h2
          linarith
        · rcases h with ⟨h2, _⟩
          rw [show (0.9999 : ℚ) = 9999/10000 by norm_num] at h2
          linarith
    · constructor
      · intro _
        rw [lt_abs]
        push_neg at h
        rcases lt_or_le (p + s + q + g) 0.9999 with h1 | h1
        · right
          rw [show (0.9999 : ℚ) = 9999/10000 by norm_num] at h1
          linarith
        · left
          have h2 := h h1
          rw [show (1.0001 : ℚ) = 10001/10000 by norm_num] at h2
          linarith
      · intro _; exact ⟨"Formula weights must sum to 1.0", rfl⟩
  · norm_num [scorerInit, POPULATION_WEIGHT_FACTOR, SATURATION_WEIGHT_FACTOR,
      QUALITY_GAP_WEIGHT_FACTOR, GEOGRAPHIC_GAP_WEIGHT_FACTOR]

/-- C2: after `calculate_scores`, every output entry's opportunity score
equals `(population_weight*0.2 + saturation_weight*0.3 +
quality_gap_weight*0.2 + geographic_gap_weight*0.3) * 100` computed from
its own four weight fields, and lies in [0, 100]. -/
theorem scores_formula_and_bounds (l : List CityStats) (hl : l ≠ [])
    (s' : CityStats) (hs' : s' ∈ calculate_scores l) :
    s'.opportunity_score =
      (s'.population_weight * 0.2 + s'.saturation_weight * 0.3
        + s'.quality_gap_weight * 0.2 + s'.geographic_gap_weight * 0.3) * 100
    ∧ 0 ≤ s'.opportunity_score ∧ s'.opportunity_score ≤ 100 := by
  rw [calculate_scores, if_neg hl] at hs'
  rcases List.mem_map.mp hs' with ⟨s, hsl, rfl⟩
  have hpop := pyNormalize_bounds (s.population.map (fun n => (n : ℚ)))
    (l.map (fun t => t.population.map (fun n => (n : ℚ)))) false
    (List.mem_map_of_mem _ hsl)
  have hsat := pyNormalize_bounds s.facilities_per_capita
    (l.map CityStats.facilities_per_capita) true
    (List.mem_map_of_mem _ hsl)
  have hqual := pyNormalize_bounds s.avg_rating
    (l.map CityStats.avg_rating) true
    (List.mem_map_of_mem _ hsl)
  have hgeo := normalize_geographic_gap_bounds s.avg_distance_to_nearest
  refine ⟨rfl, ?_, ?_⟩ <;>
    · simp only [calculate_opportunity_score, normalize_population,
        normalize_saturation, normalize_quality_gap]
      rcases hpop with ⟨hp0, hp1⟩
      rcases hsat with ⟨hs0, hs1⟩
      rcases hqual with ⟨hq0, hq1⟩
      rcases hgeo with ⟨hg0, hg1⟩
      nlinarith

/-- A sample `CityStats` row (a zero-facility city with no optional data)
used to instantiate claim hypotheses at a concrete input. -/
def sampleStats : CityStats :=
  { city := "Faro", total_facilities := 0, center_lat := 37, center_lng := -8 }

/-- The row `calculate_scores` produces from `sampleStats` as the only
input city: all four weights neutral, score 50. -/
def sampleScored : CityStats :=
  { sampleStats with
    population_weight := 0.5
    saturation_weight := 0.5
    quality_gap_weight := 0.5
    geographic_gap_weight := 0.5
    opportunity_score := 50 }

/-- Concrete instantiation of `scores_formula_and_bounds` on the
single-entry list `[sampleStats]`. -/
theorem scores_formula_and_bounds_witness :
    sampleScored.opportunity_score =
      (sampleScored.population_weight * 0.2 + sampleScored.saturation_weight * 0.3
        + sampleScored.quality_gap_weight * 0.2 + sampleScored.geographic_gap_weight * 0.3) * 100
    ∧ 0 ≤ sampleScored.opportunity_score ∧ sampleScored.opportunity_score ≤ 100 :=
  scores_formula_and_bounds [sampleStats] (by simp) sampleScored (by
    have h : calculate_scores [sampleStats] = [sampleScored] := by
      rw [calculate_scores, if_neg (by simp : ¬ ([sampleStats] = []))]
      simp only [List.map_cons, List.map_nil]
      rw [normalize_population, normalize_saturation, normalize_quality_gap]
      rw [pyNormalize_singleton, pyNormalize_singleton, pyNormalize_singleton]
      norm_num [calculate_opportunity_score, sampleScored, sampleStats,
        normalize_geographic_gap]
    rw [h]
    simp)

/-- C5: for a one-entry `CityStats` list whose `avg_distance_to_nearest`
is exactly 5.0, `calculate_scores` sets all of population, saturation
and quality-gap weights to the neutral 0.5, the geographic gap weight
to 0.50 (distance 5 falls in the [5,10) bucket), and the opportunity
score to exactly 50. -/
theorem single_city_neutral_score (s : CityStats)
    (h : s.avg_distance_to_nearest = some 5) :
    (calculate_scores [s]).map (fun r =>
      (r.population_weight, r.saturation_weight, r.quality_gap_weight,
        r.geographic_gap_weight, r.opportunity_score))
      = [(0.5, 0.5, 0.5, 0.50, 50)] := by
  rw [calculate_scores, if_neg (by simp : ¬ ([s] = []))]
  simp only [List.map_cons, List.map_nil]
  rw [normalize_population, normalize_saturation, normalize_quality_gap]
  rw [pyNormalize_singleton, pyNormalize_singleton, pyNormalize_singleton, h]
  rw [show normalize_geographic_gap (some 5) = 0.5 from by
    rw [normalize_geographic_gap]; norm_num]
  simp only [calculate_opportunity_score]
  norm_num

/-- Concrete instantiation of `single_city_neutral_score` at
`sampleStats` with the distance field set to 5. -/
theorem single_city_neutral_score_witness :
    (calculate_scores [{ sampleStats with avg_distance_to_nearest := some 5 }]).map (fun r =>
      (r.population_weight, r.saturation_weight, r.quality_gap_weight,
        r.geographic_gap_weight, r.opportunity_score))
      = [(0.5, 0.5, 0.5, 0.50, 50)] :=
  single_city_neutral_score { sampleStats with avg_distance_to_nearest := some 5 } rfl

/-- C10: `calculate_distances` only sets `avg_distance_to_nearest` and
`calculate_scores` only sets the four weight fields and the
opportunity score; every other field at every position is unchanged,
and both stages preserve the list's length and order. -/
theorem pipeline_frame_conditions (d : ℚ × ℚ → ℚ × ℚ → ℚ)
    (css : List CityStats) (fs : List Facility) (i : ℕ) :
    (calculate_distances d css fs).length = css.length
    ∧ (calculate_scores css).length = css.length
    ∧ ((calculate_distances d css fs)[i]?.map (fun r =>
        (r.city, r.total_facilities, r.avg_rating, r.median_rating, r.total_reviews,
          r.center_lat, r.center_lng, r.population, r.facilities_per_capita,
          r.opportunity_score, r.population_weight, r.saturation_weight,
          r.quality_gap_weight, r.geographic_gap_weight))
      = css[i]?.map (fun r =>
        (r.city, r.total_facilities, r.avg_rating, r.median_rating, r.total_reviews,
          r.center_lat, r.center_lng, r.population, r.facilities_per_capita,
          r.opportunity_score, r.population_weight, r.saturation_weight,
          r.quality_gap_weight, r.geographic_gap_weight)))
    ∧ ((calculate_scores css)[i]?.map (fun r =>
        (r.city, r.total_facilities, r.avg_rating, r.median_rating, r.total_reviews,
          r.center_lat, r.center_lng, r.population, r.facilities_per_capita,
          r.avg_distance_to_nearest))
      = css[i]?.map (fun r =>
        (r.city, r.total_facilities, r.avg_rating, r.median_rating, r.total_reviews,
          r.center_lat, r.center_lng, r.population, r.facilities_per_capita,
          r.avg_distance_to_nearest))) := by
  by_cases hc : css = []
  · subst hc
    refine ⟨rfl, rfl, rfl, rfl⟩
  · rw [calculate_distances, calculate_scores, if_neg hc]
    refine ⟨List.length_map _ _, List.length_map _ _, ?_, ?_⟩ <;>
      · rw [List.getElem?_map, Option.map_map]
        rfl

/-- The city name of a step-2 roster row is the roster key. -/
theorem roster_row_city (c : String) (p : ℕ) (fs : List Facility) :
    (if c ∈ distinctCities fs then aggStats c fs else zeroFacilityRow c p).city = c := by
  split <;> rfl

/-- Keys of `cityPopulations` are pairwise distinct. -/
theorem cityPopulations_keys_nodup : (cityPopulations.map Prod.fst).Nodup := by
  decide

theorem countP_keys_eq_one (l : List (String × ℕ)) (c : String)
    (hnd : (l.map Prod.fst).Nodup) (hc : c ∈ l.map Prod.fst) :
    l.countP (fun cp => cp.1 = c) = 1 := by
  induction l with
  | nil => cases hc
  | cons hd tl ih =>
    rw [List.map_cons, List.nodup_cons] at hnd
    rw [List.countP_cons]
    rcases List.mem_cons.mp hc with h | h
    · have htl : tl.countP (fun cp => cp.1 = c) = 0 := by
        rw [List.countP_eq_zero]
        intro cp hcp
        simp only [decide_eq_true_eq]
        intro hcpc
        exact hnd.1 (h ▸ hcpc ▸ List.mem_map_of_mem Prod.fst hcp)
      rw [htl]
      simp [h]
    · have hne : hd.1 ≠ c := by
        intro he
        exact hnd.1 (he ▸ h)
      rw [ih hnd.2 h]
      simp [hne]

/-- Rows built from keys not containing `c` contribute nothing to the
filter on city `c`. -/
theorem filter_rows_eq_nil (fs : List Facility) (l : List (String × ℕ)) (c : String)
    (hc : c ∉ l.map Prod.fst) :
    (l.map (fun cp => if cp.1 ∈ distinctCities fs then aggStats cp.1 fs
      else zeroFacilityRow cp.1 cp.2)).filter (fun r => r.city = c) = [] := by
  rw [List.filter_eq_nil_iff]
  intro r hr
  rcases List.mem_map.mp hr with ⟨cp, hcp, rfl⟩
  rw [roster_row_city]
  simp only [decide_eq_true_eq]
  intro he
  exact hc (he ▸ List.mem_map_of_mem Prod.fst hcp)

/-- The step-3 rows (non-roster cities with facilities) contribute
nothing to the filter on a roster city name or on any city without
facilities. -/
theorem filter_extra_rows_eq_nil (fs : List Facility) (c : String)
    (hc : c ∈ rosterNames ∨ c ∉ distinctCities fs) :
    (((distinctCities fs).filter (fun x => !(rosterNames.contains x))).map
      (fun x => aggStats x fs)).filter (fun r => r.city = c) = [] := by
  rw [List.filter_eq_nil_iff]
  intro r hr
  rcases List.mem_map.mp hr with ⟨x, hx, rfl⟩
  rcases List.mem_filter.mp hx with ⟨hxd, hxr⟩
  simp only [decide_eq_true_eq]
  have hcity : (aggStats x fs).city = x := rfl
  rw [hcity]
  intro he
  subst he
  rcases hc with h | h
  · rw [Bool.not_eq_true', ← Bool.not_eq_true] at hxr
    exact hxr (List.elem_iff.mpr h)
  · exact h hxd

/-- C1: for every facility list, every roster city appears exactly once
in `aggregate`'s output, and the output length is 15 plus the number
of distinct input city names that are not roster cities. -/
theorem aggregate_roster_complete (fs : List Facility) :
    (∀ c ∈ rosterNames, ((aggregate fs).filter (fun r => r.city = c)).length = 1)
    ∧ (aggregate fs).length
      = 15 + ((distinctCities fs).filter (fun c => !(rosterNames.contains c))).length := by
  constructor
  · intro c hc
    rw [aggregate, List.filter_append, List.length_append]
    rw [filter_extra_rows_eq_nil fs c (Or.inl hc)]
    rw [← List.countP_eq_length_filter, List.countP_map]
    have hcongr : (cityPopulations.countP
        ((fun r : CityStats => decide (r.city = c)) ∘
          (fun cp => if cp.1 ∈ distinctCities fs then aggStats cp.1 fs
            else zeroFacilityRow cp.1 cp.2)))
        = cityPopulations.countP (fun cp => cp.1 = c) := by
      apply List.countP_congr
      intro cp _
      simp only [Function.comp_apply, roster_row_city]
    rw [hcongr, countP_keys_eq_one cityPopulations c cityPopulations_keys_nodup hc]
    rfl
  · rw [aggregate, List.length_append, List.length_map, List.length_map]
    norm_num [cityPopulations]

/-- Concrete instantiation of `aggregate_roster_complete` on the empty
facility list at the roster city Faro. -/
theorem aggregate_roster_complete_witness :
    ((aggregate []).filter (fun r => r.city = "Faro")).length = 1
    ∧ (aggregate []).length
      = 15 + ((distinctCities []).filter (fun c => !(rosterNames.contains c))).length :=
  ⟨(aggregate_roster_complete []).1 "Faro" (by decide),
   (aggregate_roster_complete []).2⟩

/-- The step-2 rows filtered on a roster key `c` with no facilities are
exactly the default zero-facility row for `c`. -/
theorem filter_rows_eq_default (fs : List Facility) (l : List (String × ℕ))
    (c : String) (pop : ℕ)
    (hnd : (l.map Prod.fst).Nodup) (hc : (c, pop) ∈ l)
    (hnf : c ∉ distinctCities fs) :
    (l.map (fun cp => if cp.1 ∈ distinctCities fs then aggStats cp.1 fs
      else zeroFacilityRow cp.1 cp.2)).filter (fun r => r.city = c)
      = [zeroFacilityRow c pop] := by
  induction l with
  | nil => cases hc
  | cons hd tl ih =>
    rw [List.map_cons, List.nodup_cons] at hnd
    rcases List.mem_cons.mp hc with h | h
    · subst h
      rw [List.map_cons, List.filter_cons]
      rw [if_neg hnf]
      have hkeep : decide ((zeroFacilityRow c pop).city = c) = true := by
        simp [zeroFacilityRow]
      rw [if_pos hkeep]
      rw [filter_rows_eq_nil fs tl c hnd.1]
    · have hne : hd.1 ≠ c := by
        intro he
        exact hnd.1 (he ▸ List.mem_map_of_mem Prod.fst h)
      rw [List.map_cons, List.filter_cons]
      have hdrop : ¬ (decide ((if hd.1 ∈ distinctCities fs then aggStats hd.1 fs
          else zeroFacilityRow hd.1 hd.2).city = c) = true) := by
        simp only [roster_row_city, decide_eq_true_eq]
        exact hne
      rw [if_neg hdrop]
      exact ih hnd.2 h

/-- C6: a roster city with no facility in the input always gets exactly
the default row: zero facilities, `None` ratings, zero reviews,
per-capita 0.0 (not `None`), the roster population, and the fixed
`CITY_CENTERS` reference coordinates. -/
theorem zero_facility_city_defaults (fs : List Facility) (c : String) (pop : ℕ)
    (hc : (c, pop) ∈ cityPopulations) (habs : ∀ f ∈ fs, f.city ≠ c) :
    (aggregate fs).filter (fun r => r.city = c) = [zeroFacilityRow c pop]
    ∧ (zeroFacilityRow c pop).total_facilities = 0
    ∧ (zeroFacilityRow c pop).avg_rating = none
    ∧ (zeroFacilityRow c pop).median_rating = none
    ∧ (zeroFacilityRow c pop).total_reviews = 0
    ∧ (zeroFacilityRow c pop).facilities_per_capita = some 0
    ∧ (zeroFacilityRow c pop).population = some pop
    ∧ (zeroFacilityRow c pop).center_lat = ((cityCenters.lookup c).getD (0, 0)).1
    ∧ (zeroFacilityRow c pop).center_lng = ((cityCenters.lookup c).getD (0, 0)).2 := by
  have hnf : c ∉ distinctCities fs := by
    rw [distinctCities, List.mem_dedup]
    intro hmem
    rcases List.mem_map.mp hmem with ⟨f, hf, he⟩
    exact habs f hf he
  refine ⟨?_, rfl, rfl, rfl, rfl, rfl, rfl, rfl, rfl⟩
  rw [aggregate, List.filter_append]
  rw [filter_extra_rows_eq_nil fs c (Or.inr hnf)]
  rw [filter_rows_eq_default fs cityPopulations c pop cityPopulations_keys_nodup hc hnf]
  rfl

/-- Concrete instantiation of `zero_facility_city_defaults`: Monchique
with an empty facility list. -/
theorem zero_facility_city_defaults_witness :
    (aggregate []).filter (fun r => r.city = "Monchique")
        = [zeroFacilityRow "Monchique" 5958]
    ∧ (zeroFacilityRow "Monchique" 5958).total_facilities = 0
    ∧ (zeroFacilityRow "Monchique" 5958).avg_rating = none
    ∧ (zeroFacilityRow "Monchique" 5958).median_rating = none
    ∧ (zeroFacilityRow "Monchique" 5958).total_reviews = 0
    ∧ (zeroFacilityRow "Monchique" 5958).facilities_per_capita = some 0
    ∧ (zeroFacilityRow "Monchique" 5958).population = some 5958
    ∧ (zeroFacilityRow "Monchique" 5958).center_lat
        = ((cityCenters.lookup "Monchique").getD (0, 0)).1
    ∧ (zeroFacilityRow "Monchique" 5958).center_lng
        = ((cityCenters.lookup "Monchique").getD (0, 0)).2 :=
  zero_facility_city_defaults [] "Monchique" 5958 (by decide) (by intro f hf; cases hf)

/-! ## Distance claims -/

/-- A concrete distance function used to instantiate the abstract
geodesic parameter in witnesses and counterexamples: scaled taxicab
distance on coordinate pairs.  Like the true geodesic distance it is
non-negative and vanishes on identical coordinate pairs. -/
def taxicabKm (p q : ℚ × ℚ) : ℚ := 111 * (|p.1 - q.1| + |p.2 - q.2|)

theorem taxicabKm_nonneg (p q : ℚ × ℚ) : 0 ≤ taxicabKm p q := by
  unfold taxicabKm; positivity

theorem taxicabKm_self (p : ℚ × ℚ) : taxicabKm p p = 0 := by simp [taxicabKm]

theorem round2_zero : round2 0 = 0 := by norm_num [round2, roundHalfEven]

/-- A zero-facility city row whose reference center is (37, -8). -/
def cexCityStats : CityStats :=
  { city := "Monchique", total_facilities := 0, center_lat := 37, center_lng := -8 }

/-- A facility in another city located exactly at coordinates (37, -8). -/
def cexFacility : Facility :=
  { place_id := "p1", name := "Club", city := "Faro", latitude := 37, longitude := -8,
    rating := none, review_count := 0 }

/-- A facility in yet another city, at distinct coordinates (38, -7). -/
def farFacility : Facility :=
  { place_id := "p2", name := "Arena", city := "Lagos", latitude := 38, longitude := -7,
    rating := none, review_count := 0 }

/-- Counterexample to C7 as stated: for a distance function that is
non-negative and vanishes on identical points (as the true geodesic
distance does), a zero-facility city whose reference center coincides
with some facility's coordinates gets `avg_distance_to_nearest = 0.0`
even though the facility list is non-empty. -/
theorem zero_facility_distance_positive_cex :
    ¬ (∀ d : ℚ × ℚ → ℚ × ℚ → ℚ, (∀ p q, 0 ≤ d p q) → (∀ p, d p p = 0) →
      ∀ (stats : CityStats) (fs : List Facility),
        fs.filter (fun f => f.city = stats.city) = [] → fs ≠ [] →
        0 < calculate_distance_for_city d stats fs) := by
  intro h
  have hfil : [cexFacility].filter (fun f => f.city = cexCityStats.city) = [] := by decide
  have hval : calculate_distance_for_city taxicabKm cexCityStats [cexFacility] = 0 := by
    simp only [calculate_distance_for_city, hfil]
    norm_num [cexCityStats, cexFacility, listMin, taxicabKm, round2, roundHalfEven]
  have hpos := h taxicabKm taxicabKm_nonneg taxicabKm_self cexCityStats [cexFacility]
    hfil (by simp)
  rw [hval] at hpos
  exact lt_irrefl 0 hpos

/-- C7 (amended): a zero-facility city with at least one facility
elsewhere has `avg_distance_to_nearest > 0` provided every facility
lies at distance greater than 0.005 km from the city's reference
center (a facility at, or within 5 m of, the center makes the rounded
minimum 0.0, as the counterexample shows). -/
theorem zero_facility_distance_positive (d : ℚ × ℚ → ℚ × ℚ → ℚ)
    (stats : CityStats) (fs : List Facility)
    (hzero : fs.filter (fun f => f.city = stats.city) = [])
    (hne : fs ≠ [])
    (hfar : ∀ f ∈ fs,
      1/200 < d (stats.center_lat, stats.center_lng) (f.latitude, f.longitude)) :
    0 < calculate_distance_for_city d stats fs := by
  have hmapne : fs.map (fun f =>
      d (stats.center_lat, stats.center_lng) (f.latitude, f.longitude)) ≠ [] := by
    intro h0
    exact hne (List.map_eq_nil_iff.mp h0)
  have hminmem := listMin_mem _ hmapne
  rcases List.mem_map.mp hminmem with ⟨f, hf, hfe⟩
  have hmin : 1/200 < listMin (fs.map (fun f =>
      d (stats.center_lat, stats.center_lng) (f.latitude, f.longitude))) := by
    rw [← hfe]
    exact hfar f hf
  simp only [calculate_distance_for_city, hzero]
  rw [if_true, if_neg hne]
  exact round2_pos _ hmin

/-- Concrete instantiation of `zero_facility_distance_positive`:
taxicab distance, the (37,-8)-centered zero-facility city, and one
facility at (38,-7), 222 km away. -/
theorem zero_facility_distance_positive_witness :
    0 < calculate_distance_for_city taxicabKm cexCityStats [farFacility] :=
  zero_facility_distance_positive taxicabKm cexCityStats [farFacility]
    (by decide) (by simp)
    (by
      intro f hf
      rcases List.mem_singleton.mp hf with rfl
      norm_num [taxicabKm, cexCityStats, farFacility])

/-- A city row for Faro used on the has-facilities code path. -/
def cexFaroStats : CityStats :=
  { city := "Faro", total_facilities := 1, center_lat := 37, center_lng := -8 }

/-- A facility in a different city at the same coordinates (37, -8) as
`cexFacility`. -/
def twinFacility : Facility :=
  { place_id := "p3", name := "Padel X", city := "Lagos", latitude := 37, longitude := -8,
    rating := none, review_count := 0 }

/-- The candidate distances examined by `_calculate_distance_for_city` in
the non-degenerate cases: center-to-facility distances for a
zero-facility city, centroid-to-external-facility distances otherwise. -/
def distanceCandidates (d : ℚ × ℚ → ℚ × ℚ → ℚ)
    (stats : CityStats) (fs : List Facility) : List ℚ :=
  if fs.filter (fun f => f.city = stats.city) = [] then
    fs.map (fun f => d (stats.center_lat, stats.center_lng) (f.latitude, f.longitude))
  else
    (fs.filter (fun f => f.city ≠ stats.city)).map (fun f =>
      d (((fs.filter (fun g => g.city = stats.city)).map Facility.latitude).sum
            / ((fs.filter (fun g => g.city = stats.city)).length : ℚ),
          ((fs.filter (fun g => g.city = stats.city)).map Facility.longitude).sum
            / ((fs.filter (fun g => g.city = stats.city)).length : ℚ))
        (f.latitude, f.longitude))

/-- Counterexample to C8's "exactly": for a distance function that is
non-negative and vanishes on identical points (as the true geodesic
distance does), a city whose facility centroid coincides with an
external facility's coordinates also yields 0.0, outside the two
documented degenerate situations. -/
theorem distance_zero_exactly_cex :
    ¬ (∀ d : ℚ × ℚ → ℚ × ℚ → ℚ, (∀ p q, 0 ≤ d p q) → (∀ p, d p p = 0) →
      ∀ (stats : CityStats) (fs : List Facility),
        (calculate_distance_for_city d stats fs = 0 ↔
          (fs = [] ∨ (fs.filter (fun f => f.city = stats.city) ≠ []
            ∧ fs.filter (fun f => f.city ≠ stats.city) = [])))) := by
  intro h
  have hcf : [cexFacility, twinFacility].filter
      (fun f => f.city = cexFaroStats.city) = [cexFacility] := by decide
  have hext : [cexFacility, twinFacility].filter
      (fun f => f.city ≠ cexFaroStats.city) = [twinFacility] := by decide
  have hval : calculate_distance_for_city taxicabKm cexFaroStats
      [cexFacility, twinFacility] = 0 := by
    simp only [calculate_distance_for_city, calculate_distance_to_nearest, hcf, hext]
    norm_num [cexFacility, twinFacility, cexFaroStats, listMin, taxicabKm,
      round2, roundHalfEven]
  have hiff := h taxicabKm taxicabKm_nonneg taxicabKm_self cexFaroStats
    [cexFacility, twinFacility]
  rcases hiff.mp hval with h0 | ⟨h1, h2⟩
  · exact absurd h0 (by simp)
  · rw [hext] at h2
    exact absurd h2 (by simp)

/-- C8 (amended): the two documented degenerate situations always yield
0.0 (and, the embedding being total, no error is raised); conversely a
result of 0.0 implies one of those two situations or that some
candidate distance examined by the calculation is at most 0.005 km
(so it rounds to 0.00). -/
theorem distance_zero_cases (d : ℚ × ℚ → ℚ × ℚ → ℚ)
    (stats : CityStats) (fs : List Facility) :
    (fs = [] → calculate_distance_for_city d stats fs = 0)
    ∧ (fs.filter (fun f => f.city = stats.city) ≠ [] →
        fs.filter (fun f => f.city ≠ stats.city) = [] →
        calculate_distance_for_city d stats fs = 0)
    ∧ (calculate_distance_for_city d stats fs = 0 →
        fs = []
        ∨ (fs.filter (fun f => f.city = stats.city) ≠ []
            ∧ fs.filter (fun f => f.city ≠ stats.city) = [])
        ∨ ∃ q ∈ distanceCandidates d stats fs, q ≤ 1/200) := by
  refine ⟨?_, ?_, ?_⟩
  · intro h
    subst h
    simp [calculate_distance_for_city]
  · intro hcf hext
    simp only [calculate_distance_for_city]
    rw [if_neg hcf]
    have hfsne : fs ≠ [] := by
      intro h0
      subst h0
      exact hcf rfl
    simp only [calculate_distance_to_nearest]
    rw [if_neg hfsne, if_neg hcf, if_pos hext]
  · intro hval
    by_cases hcf : fs.filter (fun f => f.city = stats.city) = []
    · by_cases hfs : fs = []
      · exact Or.inl hfs
      · right; right
        simp only [calculate_distance_for_city, hcf, if_true] at hval
        rw [if_neg hfs] at hval
        have hmapne : fs.map (fun f =>
            d (stats.center_lat, stats.center_lng) (f.latitude, f.longitude)) ≠ [] := by
          intro h0
          exact hfs (List.map_eq_nil_iff.mp h0)
        refine ⟨listMin _, ?_, le_of_round2_eq_zero _ hval⟩
        rw [distanceCandidates, if_pos hcf]
        exact listMin_mem _ hmapne
    · by_cases hext : fs.filter (fun f => f.city ≠ stats.city) = []
      · exact Or.inr (Or.inl ⟨hcf, hext⟩)
      · right; right
        simp only [calculate_distance_for_city] at hval
        rw [if_neg hcf] at hval
        have hfsne : fs ≠ [] := by
          intro h0
          subst h0
          exact hcf rfl
        simp only [calculate_distance_to_nearest] at hval
        rw [if_neg hfsne, if_neg hcf, if_neg hext] at hval
        have hmapne : (fs.filter (fun f => f.city ≠ stats.city)).map (fun f =>
            d ((((fs.filter (fun g => g.city = stats.city)).map Facility.latitude).sum
                / ((fs.filter (fun g => g.city = stats.city)).length : ℚ)),
              (((fs.filter (fun g => g.city = stats.city)).map Facility.longitude).sum
                / ((fs.filter (fun g => g.city = stats.city)).length : ℚ)))
            (f.latitude, f.longitude)) ≠ [] := by
          intro h0
          exact hext (List.map_eq_nil_iff.mp h0)
        refine ⟨listMin _, ?_, le_of_round2_eq_zero _ hval⟩
        rw [distanceCandidates, if_neg hcf]
        exact listMin_mem _ hmapne

/-- Concrete instantiation of `distance_zero_cases`: the empty facility
list, and a single-city facility list with no external facilities. -/
theorem distance_zero_cases_witness :
    calculate_distance_for_city taxicabKm cexFaroStats [] = 0
    ∧ calculate_distance_for_city taxicabKm cexFaroStats [cexFacility] = 0
    ∧ ([cexFacility] = ([] : List Facility)
        ∨ ([cexFacility].filter (fun f => f.city = cexFaroStats.city) ≠ []
            ∧ [cexFacility].filter (fun f => f.city ≠ cexFaroStats.city) = [])
        ∨ ∃ q ∈ distanceCandidates taxicabKm cexFaroStats [cexFacility], q ≤ 1/200) := by
  have h2 := (distance_zero_cases taxicabKm cexFaroStats [cexFacility]).2.1
    (by decide) (by decide)
  exact ⟨(distance_zero_cases taxicabKm cexFaroStats []).1 rfl, h2,
    (distance_zero_cases taxicabKm cexFaroStats [cexFacility]).2.2 h2⟩

end Padel
